import Mathlib

/-
Verification of the texture-definition registry and shadow-node construction
logic of the OGRE compositor subsystem, shallowly embedded in Lean 4.

Embedded source files:
  OgreMain/include/Compositor/OgreTextureDefinition.h
  OgreMain/src/Compositor/OgreCompositorShadowNode.cpp

The registry method bodies (encodeTexSource, decodeTexSource,
addTextureSourceName, addTextureDefinition) are only declared in the header;
their definitions live in a translation unit not present here, so those
operations are modelled from the specification text and are marked
"Modelled from the spec" in their doc comments.
-/

namespace OgreSpec

/-- Embeds enum TextureSource from OgreTextureDefinition.h (lines 55-61).
The sentinel NUM_TEXTURES_SOURCES (= 3) is not a valid source and is kept out
of the inductive; the three valid variants carry their C++ enum values via
TextureSource.toNat. -/
inductive TextureSource where
  | TEXTURE_INPUT
  | TEXTURE_LOCAL
  | TEXTURE_GLOBAL
deriving DecidableEq, Repr

/-- C++ numeric value of each TextureSource enumerator (TEXTURE_INPUT = 0,
TEXTURE_LOCAL = 1, TEXTURE_GLOBAL = 2). -/
def TextureSource.toNat : TextureSource → Nat
  | .TEXTURE_INPUT => 0
  | .TEXTURE_LOCAL => 1
  | .TEXTURE_GLOBAL => 2

/-- Partial inverse of TextureSource.toNat; values ≥ 3 have no valid
enumerator, the fallback is arbitrary (only 0, 1, 2 are ever produced by a
well-formed encoded word). -/
def textureSourceOfValue : Nat → TextureSource
  | 0 => .TEXTURE_INPUT
  | 1 => .TEXTURE_LOCAL
  | _ => .TEXTURE_GLOBAL

/-- Embeds enum BoolSetting from OgreTextureDefinition.h (lines 68-73):
Undefined = 0, False = 1, True = 2. -/
inductive BoolSetting where
  | Undefined
  | False
  | True
deriving DecidableEq, Repr

/-- C++ numeric value of each BoolSetting enumerator (Undefined = 0 is
explicit in the source; False and True follow as 1 and 2). -/
def BoolSetting.toNat : BoolSetting → Nat
  | .Undefined => 0
  | .False => 1
  | .True => 2

/-- Models the C++ implicit conversion from the unscoped enum BoolSetting to
bool: any nonzero enumerator value converts to true. This is the conversion
the compiler applies when a BoolSetting is passed where a bool parameter is
expected, as happens at the createManual call sites in
OgreCompositorShadowNode.cpp (lines 60-64 and 81-86). -/
def BoolSetting.toCppBool (b : BoolSetting) : Bool :=
  decide (b.toNat ≠ 0)

/-- Modelled from the spec: encodeTexSource's body is not among the provided
sources (only its declaration, OgreTextureDefinition.h line 123). Per spec
section 4.1 the scheme packs the sourceKind into the low bits and the index
into the remaining high bits of one 32-bit word; two low bits suffice for the
three variants, leaving 30 bits of index capacity (well above the required
tens of thousands). -/
def encodeTexSource (index : Nat) (textureSource : TextureSource) : Nat :=
  (index * 4 + textureSource.toNat) % 2 ^ 32

/-- Modelled from the spec: decodeTexSource's body is not among the provided
sources (only its declaration, OgreTextureDefinition.h line 124). Unpacks the
low two bits as the sourceKind and the high bits as the index, returning the
pair that the C++ signature delivers through its two out-parameters. -/
def decodeTexSource (encodedVal : Nat) : Nat × TextureSource :=
  (encodedVal / 4, textureSourceOfValue (encodedVal % 4))

/-- Largest index the modelled 30-bit index field can hold without collision. -/
def texSourceIndexCapacity : Nat := 2 ^ 30

/-- Error kinds of spec section 7 raised by the registry (in C++ these are
OGRE_EXCEPT exceptions thrown synchronously to the caller). -/
inductive TexDefError where
  | nameConflict
  | namingConventionViolation
  | nameNotFound
deriving DecidableEq, Repr

/-- Pixel formats are opaque codes to this core (the PixelFormat enum lives
outside the embedded sources); only their identity and list order matter. -/
abbrev PixelFormat := Nat

/-- Embeds class TextureDefinition (OgreTextureDefinition.h lines 65-107)
with the default field values of its constructor (lines 104-106). IdString
interning is modelled by carrying the source string itself, which is faithful
because the spec treats interning as an injective name-preserving operation.
The C++ float factor fields are kept as Float; no claim depends on them. -/
structure TextureDefinition where
  name : String
  width : Nat := 0
  height : Nat := 0
  widthFactor : Float := 1.0
  heightFactor : Float := 1.0
  formatList : List PixelFormat := []
  fsaa : Bool := true
  hwGammaWrite : BoolSetting := .Undefined
  depthBufferId : Nat := 1
  fsaaExplicitResolve : Bool := false

/-- Embeds the per-registry state of class TextureDefinitionBase
(OgreTextureDefinition.h lines 112-121). The NameToChannelMap
(map<IdString, uint32>) is modelled as an association list from interned
names to encoded 32-bit words; lookup finds the unique binding since
registration refuses duplicates. -/
structure TextureDefinitionBase where
  mDefaultLocalTextureSource : TextureSource
  mLocalTextureDefs : List TextureDefinition := []
  mNameToChannelMap : List (String × Nat) := []

/-- Tests whether a name begins with the reserved "global_" prefix, the
check the header remarks describe (OgreTextureDefinition.h lines 132-135).
List.isPrefixOf over the character data is used because it is
kernel-computable, unlike String.startsWith. -/
def hasGlobalPrefix (name : String) : Bool :=
  List.isPrefixOf ("global_".data) name.data

/-- Modelled from the spec (section 4.1): the "global_" naming-convention
test — violated when the prefix is present but the source is not
TEXTURE_GLOBAL, or the prefix is absent but the source is TEXTURE_GLOBAL. -/
def violatesGlobalRule (name : String) (textureSource : TextureSource) : Bool :=
  (hasGlobalPrefix name && decide (textureSource ≠ .TEXTURE_GLOBAL)) ||
  (!hasGlobalPrefix name && decide (textureSource = .TEXTURE_GLOBAL))

/-- Modelled from the spec: addTextureSourceName's body is not among the
provided sources (only its declaration, OgreTextureDefinition.h lines
155-156, and its contract, lines 132-154 plus spec section 4.1). The spec's
operational order is transcribed directly: "Fails with a NameConflict error
if the name already exists in the map. Fails with a NamingConventionViolation
error if the global_ prefix rule is violated. On success, stores
encode(index, sourceKind) under the interned name and returns the interned
name." -/
def addTextureSourceName (st : TextureDefinitionBase) (name : String) (index : Nat)
    (textureSource : TextureSource) :
    Except TexDefError (TextureDefinitionBase × String) :=
  if (st.mNameToChannelMap.lookup name).isSome then
    .error .nameConflict
  else if violatesGlobalRule name textureSource then
    .error .namingConventionViolation
  else
    .ok ({ st with
            mNameToChannelMap :=
              (name, encodeTexSource index textureSource) :: st.mNameToChannelMap },
         name)

/-- Modelled from the spec (section 4.1): addTextureDefinition appends a new
definition with the constructor's default field values, registering its name
through addTextureSourceName at the next free index of mLocalTextureDefs with
the registry's configured default source kind. Body not among the provided
sources (declaration at OgreTextureDefinition.h line 194). -/
def addTextureDefinition (st : TextureDefinitionBase) (name : String) :
    Except TexDefError (TextureDefinitionBase × TextureDefinition) :=
  match addTextureSourceName st name st.mLocalTextureDefs.length
      st.mDefaultLocalTextureSource with
  | .error e => .error e
  | .ok (st2, _) =>
      let td : TextureDefinition := { name := name }
      .ok ({ st2 with mLocalTextureDefs := st2.mLocalTextureDefs ++ [td] }, td)

/-- Modelled from the spec (section 4.1): getTextureSource looks up a
previously registered name, failing with NameNotFound when absent and
otherwise decoding the stored 32-bit word. Body not among the provided
sources (declaration at OgreTextureDefinition.h line 170). -/
def getTextureSource (st : TextureDefinitionBase) (name : String) :
    Except TexDefError (Nat × TextureSource) :=
  match st.mNameToChannelMap.lookup name with
  | none => .error .nameNotFound
  | some v => .ok (decodeTexSource v)

/-- Projects the error of a fallible registry result, none on success; keeps
claim statements decidable without equality on the success payload. -/
def resultError {α : Type} : Except TexDefError α → Option TexDefError
  | .error e => some e
  | .ok _ => none

/-- Embeds the fields of a shadow-map texture definition that the constructor
in OgreCompositorShadowNode.cpp actually reads (name, width, height,
formatList, fsaa, hwGammaWrite — lines 56-86). ShadowTextureDefinition is a
TextureDefinition plus shadow metadata the constructor never consults here;
the Float factor fields are likewise unread and omitted so that equality
stays decidable. -/
structure ShadowTextureDefinition where
  name : String
  width : Nat
  height : Nat
  formatList : List PixelFormat
  fsaa : Bool
  hwGammaWrite : BoolSetting
deriving DecidableEq, Repr

/-- Modelled from the spec: the channel base name
(itor->name + IdString( id )).getFriendlyText() of
OgreCompositorShadowNode.cpp line 56. IdString concatenation and
getFriendlyText live outside the provided sources; per spec section 4.2 the
combination of the definition's interned name with the owning instance's
unique identifier "guarantees no collision between multiple active
instances", so the combined name is modelled as the ordered pair. -/
structure FriendlyName where
  defName : String
  instanceId : Nat
deriving DecidableEq, Repr

/-- Modelled from the spec: a backend resource name — either a bare channel
base name, or the base name suffixed with an MRT ordinal
(textureName + StringConverter::toString( rtNum ),
OgreCompositorShadowNode.cpp line 82; StringConverter is outside the provided
sources, and the decimal suffix is injective in the ordinal). -/
inductive TexName where
  | base (n : FriendlyName)
  | mrtSlot (n : FriendlyName) (ordinal : Nat)
deriving DecidableEq, Repr

/-- Owning instance identifier baked into a backend resource name. -/
def TexName.instanceId : TexName → Nat
  | .base n => n.instanceId
  | .mrtSlot n _ => n.instanceId

/-- Record of one texture as created by
TextureManager::getSingleton().createManual — the arguments the call site
passes that vary per definition: name, width, height, format, the bool
hwGamma argument and the uint fsaa argument (the resource group, TEX_TYPE_2D,
numMipmaps = 0, TU_RENDERTARGET and loader = 0 are fixed at both call
sites). -/
structure Texture where
  texName : TexName
  width : Nat
  height : Nat
  format : PixelFormat
  hwGamma : Bool
  fsaa : Nat
deriving DecidableEq, Repr

/-- A render-target handle: either tex->getBuffer()->getRenderTarget() of a
created texture, or the MultiRenderTarget returned by
mRenderSystem->createMultiRenderTarget. -/
inductive RenderTargetHandle where
  | texRT (name : TexName)
  | mrtRT (name : TexName)
deriving DecidableEq, Repr

/-- Embeds CompositorChannel as consumed here: a render-target handle plus
the ordered list of textures pushed into it. -/
structure CompositorChannel where
  target : RenderTargetHandle
  textures : List Texture
deriving DecidableEq, Repr

/-- A named allocation request sent to the external backend: a 2D texture or
an MRT container. The backend oracle answers whether the request succeeds
(false = it raises a BackendAllocationError, which the C++ code lets
propagate out of the constructor). -/
inductive AllocReq where
  | tex (name : TexName)
  | mrt (name : TexName)
deriving DecidableEq, Repr

/-- Observable steps of shadow-node construction, in program order: backend
calls (createTex, createMRT, bindSurface), the push_back into
mLocalTextures (pushChannel) and the final initializePasses call. -/
inductive Event where
  | createTex (t : Texture)
  | createMRT (name : TexName)
  | bindSurface (mrtName : TexName) (rtNum : Nat) (rt : RenderTargetHandle)
  | pushChannel (c : CompositorChannel)
  | initPasses
deriving DecidableEq, Repr

/-- Assembles the createManual argument record for one texture of a
definition, mirroring both call sites (OgreCompositorShadowNode.cpp lines
60-64 and 81-86): the BoolSetting hwGammaWrite is passed where createManual
expects a bool (implicit C++ enum-to-bool conversion) and the bool fsaa is
passed where createManual expects a uint. -/
def mkTexture (texName : TexName) (d : ShadowTextureDefinition)
    (fmt : PixelFormat) : Texture :=
  { texName := texName, width := d.width, height := d.height, format := fmt,
    hwGamma := d.hwGammaWrite.toCppBool, fsaa := if d.fsaa then 1 else 0 }

/-- Embeds the inner MRT while loop (OgreCompositorShadowNode.cpp lines
78-91): for each remaining format, create a texture named with the current
ordinal rtNum, bind its render target as surface rtNum of the MRT, and append
it to the accumulating texture list. Returns the emitted events plus the
created textures, or none when the backend refuses a request (the C++
exception aborts the loop and propagates). -/
def mrtLoop (oracle : AllocReq → Bool) (base : FriendlyName)
    (d : ShadowTextureDefinition) :
    List PixelFormat → Nat → List Event × Option (List Texture)
  | [], _ => ([], some [])
  | fmt :: rest, rtNum =>
    let tex := mkTexture (.mrtSlot base rtNum) d fmt
    if oracle (.tex tex.texName) then
      let r := mrtLoop oracle base d rest (rtNum + 1)
      (Event.createTex tex ::
         Event.bindSurface (.base base) rtNum (.texRT tex.texName) :: r.1,
       r.2.map (fun texs => tex :: texs))
    else ([], none)

/-- Embeds one iteration of the constructor's outer loop body
(OgreCompositorShadowNode.cpp lines 54-92): formatList.size() == 1 takes the
plain render-target branch (creating one texture under the bare base name,
whose format is formatList[0] — written headD since the branch guard pins the
length to one); every other size takes the MRT branch, creating the MRT
container first and then running the inner loop from ordinal 0. -/
def buildChannel (oracle : AllocReq → Bool) (base : FriendlyName)
    (d : ShadowTextureDefinition) : List Event × Option CompositorChannel :=
  if d.formatList.length = 1 then
    let tex := mkTexture (.base base) d (d.formatList.headD 0)
    if oracle (.tex tex.texName) then
      ([Event.createTex tex],
       some { target := .texRT tex.texName, textures := [tex] })
    else ([], none)
  else
    if oracle (.mrt (.base base)) then
      let r := mrtLoop oracle base d d.formatList 0
      (Event.createMRT (.base base) :: r.1,
       r.2.map (fun texs =>
         { target := .mrtRT (.base base), textures := texs }))
    else ([], none)

/-- Embeds the constructor's outer while loop (OgreCompositorShadowNode.cpp
lines 52-97): builds one channel per definition in order, pushing each
completed channel into mLocalTextures before moving to the next definition.
A backend failure ends the run with none; the events already emitted (the
backend calls and pushes that happened before the C++ exception) are kept in
the trace. -/
def constructLoop (oracle : AllocReq → Bool) (id : Nat) :
    List ShadowTextureDefinition → List Event × Option (List CompositorChannel)
  | [] => ([], some [])
  | d :: rest =>
    let r := buildChannel oracle { defName := d.name, instanceId := id } d
    match r.2 with
    | none => (r.1, none)
    | some ch =>
      let r2 := constructLoop oracle id rest
      (r.1 ++ Event.pushChannel ch :: r2.1, r2.2.map (fun chs => ch :: chs))

/-- The part of the constructed CompositorShadowNode state the claims are
about: the instance id and the local-channel collection mLocalTextures. -/
structure CompositorShadowNode where
  id : Nat
  mLocalTextures : List CompositorChannel
deriving DecidableEq, Repr

/-- Embeds CompositorShadowNode's constructor (OgreCompositorShadowNode.cpp
lines 40-104): run the definition loop, then call initializePasses (line
103). A backend failure makes the whole construction fail — the C++
exception propagates out of the constructor, so no node object ever becomes
reachable, modelled by the none result. -/
def constructShadowNode (oracle : AllocReq → Bool) (id : Nat)
    (defs : List ShadowTextureDefinition) :
    List Event × Option CompositorShadowNode :=
  let r := constructLoop oracle id defs
  match r.2 with
  | none => (r.1, none)
  | some chs => (r.1 ++ [Event.initPasses], some { id := id, mLocalTextures := chs })

/-- The backend resource name carried by an event, when the event is an
allocation request (createTex or createMRT). -/
def Event.requestedName : Event → Option TexName
  | .createTex t => some t.texName
  | .createMRT n => some n
  | _ => none

/-- All backend resource names requested in a trace, in order. -/
def requestedNames (evs : List Event) : List TexName :=
  evs.filterMap Event.requestedName

/-- C8 counterexample state: a registry in which "foo" is already bound as a
local texture, holding exactly the binding a successful fresh
addTextureSourceName call stores. -/
def conflictSt : TextureDefinitionBase :=
  { mDefaultLocalTextureSource := TextureSource.TEXTURE_LOCAL,
    mNameToChannelMap := [("foo", encodeTexSource 0 TextureSource.TEXTURE_LOCAL)] }

/-- C6: for every index within the encoding's supported range and every valid
TextureSource variant, decodeTexSource applied to
encodeTexSource(index, sourceKind) yields back exactly (index, sourceKind). -/
theorem decodeTexSource_encodeTexSource (index : Nat) (textureSource : TextureSource)
    (h : index < texSourceIndexCapacity) :
    decodeTexSource (encodeTexSource index textureSource) = (index, textureSource) := by
  have h2 : textureSource.toNat ≤ 2 := by
    cases textureSource <;> simp [TextureSource.toNat]
  have hlt : index * 4 + textureSource.toNat < 2 ^ 32 := by
    unfold texSourceIndexCapacity at h
    omega
  unfold encodeTexSource decodeTexSource
  rw [Nat.mod_eq_of_lt hlt]
  have hmod : (index * 4 + textureSource.toNat) % 4 = textureSource.toNat := by omega
  have hdiv : (index * 4 + textureSource.toNat) / 4 = index := by omega
  rw [hmod, hdiv]
  cases textureSource <;> rfl

/-- Witness for C6 at index 54321 (within the tens-of-thousands requirement)
and sourceKind TEXTURE_GLOBAL. -/
theorem decodeTexSource_encodeTexSource_witness :
    54321 < texSourceIndexCapacity ∧
    decodeTexSource (encodeTexSource 54321 TextureSource.TEXTURE_GLOBAL) =
      (54321, TextureSource.TEXTURE_GLOBAL) :=
  ⟨by decide,
   decodeTexSource_encodeTexSource 54321 TextureSource.TEXTURE_GLOBAL (by decide)⟩

/-- C7: addTextureSourceName fails with NameConflict exactly when the name is
already bound in this registry's own name-to-channel map; success is
determined by this registry's own state alone (hence same-name registrations
in distinct registries are independent); and on success the binding
encode(index, sourceKind) is stored under the interned name and the interned
name is returned. -/
theorem addTextureSourceName_nameConflict_iff (st : TextureDefinitionBase)
    (name : String) (index : Nat) (textureSource : TextureSource) :
    (resultError (addTextureSourceName st name index textureSource) =
        some TexDefError.nameConflict ↔
      (st.mNameToChannelMap.lookup name).isSome = true) ∧
    ((∃ p, addTextureSourceName st name index textureSource = Except.ok p) ↔
      (st.mNameToChannelMap.lookup name = none ∧
        violatesGlobalRule name textureSource = false)) ∧
    (∀ st2 ret, addTextureSourceName st name index textureSource = Except.ok (st2, ret) →
      ret = name ∧
      st2.mNameToChannelMap =
        (name, encodeTexSource index textureSource) :: st.mNameToChannelMap ∧
      st2.mNameToChannelMap.lookup name = some (encodeTexSource index textureSource)) := by
  unfold addTextureSourceName
  by_cases hdup : (st.mNameToChannelMap.lookup name).isSome
  · obtain ⟨v, hv⟩ := Option.isSome_iff_exists.mp hdup
    simp [hv, resultError]
  · rw [Option.not_isSome_iff_eq_none] at hdup
    by_cases hvio : violatesGlobalRule name textureSource
    · simp [hdup, hvio, resultError]
    · simp only [hdup, Option.isSome_none, if_false, hvio, Bool.false_eq_true,
        eq_self_iff_true, if_true, resultError]
      refine ⟨by simp, ⟨by simp [hvio], ?_⟩⟩
      intro st2 ret hok
      injection hok with hpair
      rw [Prod.mk.injEq] at hpair
      obtain ⟨hst2, hret⟩ := hpair
      subst hst2
      refine ⟨hret.symm ▸ rfl, rfl, ?_⟩
      simp [List.lookup]

/-- Witness for C7: re-registering "foo" in a registry that already binds it
reports NameConflict. -/
theorem addTextureSourceName_nameConflict_iff_witness :
    resultError (addTextureSourceName conflictSt "foo" 1 TextureSource.TEXTURE_LOCAL) =
      some TexDefError.nameConflict :=
  (addTextureSourceName_nameConflict_iff conflictSt "foo" 1
    TextureSource.TEXTURE_LOCAL).1.mpr (by decide)

/-- C8 as stated is false at one concrete input: registering the already
bound name "foo" under TEXTURE_GLOBAL violates the prefix rule ("foo" lacks
the "global_" prefix), yet the reported error is NameConflict, not
NamingConventionViolation, because the duplicate check fires first. -/
theorem conventionViolation_iff_counterexample :
    violatesGlobalRule "foo" TextureSource.TEXTURE_GLOBAL = true ∧
    resultError (addTextureSourceName conflictSt "foo" 1 TextureSource.TEXTURE_GLOBAL) =
      some TexDefError.nameConflict ∧
    resultError (addTextureSourceName conflictSt "foo" 1 TextureSource.TEXTURE_GLOBAL) ≠
      some TexDefError.namingConventionViolation := by decide

/-- C8 amended: addTextureSourceName (and addTextureDefinition, which
registers through it) fails with NamingConventionViolation exactly when the
name is not already registered and the "global_" prefix rule is violated; for
an unregistered name the two matching combinations succeed; and the
convention is enforced at registration time only — lookup via
getTextureSource never reports a NamingConventionViolation. -/
theorem conventionViolation_iff (st : TextureDefinitionBase) (name : String)
    (index : Nat) (textureSource : TextureSource) :
    (resultError (addTextureSourceName st name index textureSource) =
        some TexDefError.namingConventionViolation ↔
      (st.mNameToChannelMap.lookup name = none ∧
        violatesGlobalRule name textureSource = true)) ∧
    (resultError (addTextureDefinition st name) =
        some TexDefError.namingConventionViolation ↔
      (st.mNameToChannelMap.lookup name = none ∧
        violatesGlobalRule name st.mDefaultLocalTextureSource = true)) ∧
    ((st.mNameToChannelMap.lookup name = none ∧
        violatesGlobalRule name textureSource = false) →
      ∃ p, addTextureSourceName st name index textureSource = Except.ok p) ∧
    resultError (getTextureSource st name) ≠ some TexDefError.namingConventionViolation := by
  refine ⟨?_, ?_, ?_, ?_⟩
  · unfold addTextureSourceName
    by_cases hdup : (st.mNameToChannelMap.lookup name).isSome
    · obtain ⟨v, hv⟩ := Option.isSome_iff_exists.mp hdup
      simp [hv, resultError]
    · rw [Option.not_isSome_iff_eq_none] at hdup
      by_cases hvio : violatesGlobalRule name textureSource
      · simp [hdup, hvio, resultError]
      · simp [hdup, hvio, resultError]
  · unfold addTextureDefinition addTextureSourceName
    by_cases hdup : (st.mNameToChannelMap.lookup name).isSome
    · obtain ⟨v, hv⟩ := Option.isSome_iff_exists.mp hdup
      simp [hv, resultError]
    · rw [Option.not_isSome_iff_eq_none] at hdup
      by_cases hvio : violatesGlobalRule name st.mDefaultLocalTextureSource
      · simp [hdup, hvio, resultError]
      · simp [hdup, hvio, resultError]
  · intro hcond
    unfold addTextureSourceName
    simp [hcond.1, hcond.2]
  · unfold getTextureSource
    cases st.mNameToChannelMap.lookup name <;> simp [resultError]

/-- Witness for C8 amended: registering "global_x" under TEXTURE_LOCAL in a
fresh registry is refused as a NamingConventionViolation. -/
theorem conventionViolation_iff_witness :
    resultError
        (addTextureSourceName
          { mDefaultLocalTextureSource := TextureSource.TEXTURE_LOCAL }
          "global_x" 0 TextureSource.TEXTURE_LOCAL) =
      some TexDefError.namingConventionViolation :=
  (conventionViolation_iff
    { mDefaultLocalTextureSource := TextureSource.TEXTURE_LOCAL }
    "global_x" 0 TextureSource.TEXTURE_LOCAL).1.mpr (by decide)

/-- Concrete single-format shadow-map definition used by several witnesses. -/
def wdefSingle : ShadowTextureDefinition :=
  { name := "wtex", width := 1, height := 1, formatList := [5], fsaa := true,
    hwGammaWrite := BoolSetting.True }

/-- Concrete two-format (MRT) shadow-map definition used by several
witnesses. -/
def wdefMRT : ShadowTextureDefinition :=
  { name := "wmrt", width := 2, height := 2, formatList := [8, 9], fsaa := false,
    hwGammaWrite := BoolSetting.Undefined }

/-- Concrete empty-format-list definition used by the C10 witness. -/
def wdefEmpty : ShadowTextureDefinition :=
  { name := "wempty", width := 1, height := 1, formatList := [], fsaa := true,
    hwGammaWrite := BoolSetting.Undefined }

/-- Base name of wdefSingle inside instance 4. -/
def wnameS : FriendlyName := { defName := "wtex", instanceId := 4 }

/-- Base name of wdefMRT inside instance 4. -/
def wnameM : FriendlyName := { defName := "wmrt", instanceId := 4 }

/-- Channel instance 4 builds from wdefSingle. -/
def wchS : CompositorChannel :=
  { target := .texRT (.base wnameS), textures := [mkTexture (.base wnameS) wdefSingle 5] }

/-- Channel instance 4 builds from wdefMRT. -/
def wchM : CompositorChannel :=
  { target := .mrtRT (.base wnameM),
    textures := [mkTexture (.mrtSlot wnameM 0) wdefMRT 8,
                 mkTexture (.mrtSlot wnameM 1) wdefMRT 9] }

/-- Node instance 4 built from [wdefSingle, wdefMRT]. -/
def wnode : CompositorShadowNode := { id := 4, mLocalTextures := [wchS, wchM] }

/-- Tests whether an event is the push of a channel into mLocalTextures. -/
def Event.isPushChannel : Event → Bool
  | .pushChannel _ => true
  | _ => false

/-- A created texture carries exactly the name it was requested under. -/
@[simp]
theorem mkTexture_texName (tn : TexName) (d : ShadowTextureDefinition)
    (fmt : PixelFormat) : (mkTexture tn d fmt).texName = tn := rfl

/-- Closed form of the inner MRT loop when the backend grants every request:
per format, in order, a createTex of the ordinal-suffixed texture followed by
a bindSurface at that ordinal, with the textures accumulated in list order. -/
theorem mrtLoop_granted (oracle : AllocReq → Bool) (base : FriendlyName)
    (d : ShadowTextureDefinition) (hor : ∀ r, oracle r = true) :
    ∀ (fmts : List PixelFormat) (k : Nat),
      mrtLoop oracle base d fmts k =
        ((fmts.enumFrom k).flatMap fun p =>
            [Event.createTex (mkTexture (.mrtSlot base p.1) d p.2),
             Event.bindSurface (.base base) p.1 (.texRT (.mrtSlot base p.1))],
         some ((fmts.enumFrom k).map fun p => mkTexture (.mrtSlot base p.1) d p.2)) := by
  intro fmts
  induction fmts with
  | nil => intro k; simp [mrtLoop]
  | cons fmt rest ih =>
      intro k
      simp [mrtLoop, hor, ih (k + 1), List.enumFrom]

/-- On success the outer loop yields exactly one channel per definition, in
definition order, each being the channel its own definition's buildChannel
run produced. -/
theorem constructLoop_channels (oracle : AllocReq → Bool) (id : Nat) :
    ∀ (defs : List ShadowTextureDefinition) (chs : List CompositorChannel),
      (constructLoop oracle id defs).2 = some chs →
      chs.length = defs.length ∧
      ∀ (i : Nat) (d : ShadowTextureDefinition), defs[i]? = some d →
        chs[i]? = (buildChannel oracle { defName := d.name, instanceId := id } d).2 := by
  intro defs
  induction defs with
  | nil =>
      intro chs h
      simp [constructLoop] at h
      subst h
      simp
  | cons d rest ih =>
      intro chs h
      rw [constructLoop] at h
      rcases hb : (buildChannel oracle { defName := d.name, instanceId := id } d).2
        with _ | ch
      · rw [hb] at h; simp at h
      · rw [hb] at h
        rcases hr2 : (constructLoop oracle id rest).2 with _ | chs2
        · simp [hr2] at h
        · simp [hr2] at h
          subst h
          obtain ⟨hlen, hidx⟩ := ih chs2 hr2
          refine ⟨by simp [hlen], ?_⟩
          intro i dd hdd
          match i with
          | 0 =>
              simp at hdd
              subst hdd
              simp [hb]
          | i + 1 =>
              simp at hdd ⊢
              exact hidx i dd hdd

/-- Every event the inner MRT loop emits is a createTex or a bindSurface —
never an initializePasses marker nor a channel push. -/
theorem mrtLoop_trace (oracle : AllocReq → Bool) (base : FriendlyName)
    (d : ShadowTextureDefinition) :
    ∀ (fmts : List PixelFormat) (k : Nat),
      ∀ e ∈ (mrtLoop oracle base d fmts k).1,
        e ≠ Event.initPasses ∧ e.isPushChannel = false := by
  intro fmts
  induction fmts with
  | nil => intro k e he; simp [mrtLoop] at he
  | cons fmt rest ih =>
      intro k e he
      simp only [mrtLoop, mkTexture_texName] at he
      split at he
      · simp at he
        rcases he with he | he | he
        · subst he; exact ⟨(fun hc => nomatch hc), rfl⟩
        · subst he; exact ⟨(fun hc => nomatch hc), rfl⟩
        · exact ih (k + 1) e he
      · simp at he

/-- Every event buildChannel emits is a backend call — never an
initializePasses marker nor a channel push. -/
theorem buildChannel_trace (oracle : AllocReq → Bool) (base : FriendlyName)
    (d : ShadowTextureDefinition) :
    ∀ e ∈ (buildChannel oracle base d).1,
      e ≠ Event.initPasses ∧ e.isPushChannel = false := by
  intro e he
  simp only [buildChannel, mkTexture_texName] at he
  split at he
  · split at he
    · simp at he
      subst he
      exact ⟨(fun hc => nomatch hc), rfl⟩
    · simp at he
  · split at he
    · simp at he
      rcases he with he | he
      · subst he; exact ⟨(fun hc => nomatch hc), rfl⟩
      · exact mrtLoop_trace oracle base d d.formatList 0 e he
    · simp at he

/-- The outer loop's trace never contains initializePasses, and on success it
contains exactly one channel push per definition. -/
theorem constructLoop_trace (oracle : AllocReq → Bool) (id : Nat) :
    ∀ defs : List ShadowTextureDefinition,
      Event.initPasses ∉ (constructLoop oracle id defs).1 ∧
      (∀ chs, (constructLoop oracle id defs).2 = some chs →
        (constructLoop oracle id defs).1.countP Event.isPushChannel = defs.length) := by
  intro defs
  induction defs with
  | nil => simp [constructLoop]
  | cons d rest ih =>
      rcases hb : (buildChannel oracle { defName := d.name, instanceId := id } d).2
        with _ | ch
      · simp only [constructLoop, hb]
        refine ⟨?_, by simp⟩
        intro hmem
        exact (buildChannel_trace oracle _ d _ hmem).1 rfl
      · simp only [constructLoop, hb]
        constructor
        · intro hmem
          rcases List.mem_append.mp hmem with hmem | hmem
          · exact (buildChannel_trace oracle _ d _ hmem).1 rfl
          · rcases List.mem_cons.mp hmem with hmem | hmem
            · exact nomatch hmem
            · exact ih.1 hmem
        · intro chs hchs
          rcases hr2 : (constructLoop oracle id rest).2 with _ | chs2
          · rw [hr2] at hchs; simp at hchs
          · rw [hr2] at hchs
            have hcount := ih.2 chs2 hr2
            have hzero :
                (buildChannel oracle { defName := d.name, instanceId := id } d).1.countP
                  Event.isPushChannel = 0 := by
              rw [List.countP_eq_zero]
              intro e he
              simpa using (buildChannel_trace oracle _ d e he).2
            simp [List.countP_append, List.countP_cons, hzero, hcount,
              Event.isPushChannel]

/-- Every backend name the inner MRT loop requests belongs to the loop's base
name's owning instance. -/
theorem mrtLoop_names (oracle : AllocReq → Bool) (base : FriendlyName)
    (d : ShadowTextureDefinition) :
    ∀ (fmts : List PixelFormat) (k : Nat),
      ∀ n ∈ requestedNames (mrtLoop oracle base d fmts k).1,
        n.instanceId = base.instanceId := by
  intro fmts
  induction fmts with
  | nil => intro k n hn; simp [mrtLoop, requestedNames] at hn
  | cons fmt rest ih =>
      intro k n hn
      simp only [requestedNames] at hn
      simp only [mrtLoop, mkTexture_texName] at hn
      split at hn
      · simp [Event.requestedName] at hn
        rcases hn with hn | hn
        · subst hn; rfl
        · exact ih (k + 1) n (by simpa [requestedNames] using hn)
      · simp at hn

/-- Every backend name buildChannel requests belongs to its base name's
owning instance. -/
theorem buildChannel_names (oracle : AllocReq → Bool) (base : FriendlyName)
    (d : ShadowTextureDefinition) :
    ∀ n ∈ requestedNames (buildChannel oracle base d).1,
      n.instanceId = base.instanceId := by
  intro n hn
  simp only [requestedNames] at hn
  simp only [buildChannel, mkTexture_texName] at hn
  split at hn
  · split at hn
    · simp [Event.requestedName] at hn
      subst hn; rfl
    · simp at hn
  · split at hn
    · simp [Event.requestedName] at hn
      rcases hn with hn | hn
      · subst hn; rfl
      · exact mrtLoop_names oracle base d d.formatList 0 n
          (by simpa [requestedNames] using hn)
    · simp at hn

/-- Every backend name the whole construction requests carries the owning
node instance's identifier. -/
theorem constructShadowNode_names (oracle : AllocReq → Bool) (id : Nat)
    (defs : List ShadowTextureDefinition) :
    ∀ n ∈ requestedNames (constructShadowNode oracle id defs).1,
      n.instanceId = id := by
  have hloop : ∀ ds : List ShadowTextureDefinition,
      ∀ n ∈ requestedNames (constructLoop oracle id ds).1, n.instanceId = id := by
    intro ds
    induction ds with
    | nil => intro n hn; simp [constructLoop, requestedNames] at hn
    | cons d rest ih =>
        intro n hn
        rcases hb : (buildChannel oracle { defName := d.name, instanceId := id } d).2
          with _ | ch
        · simp only [constructLoop, hb] at hn
          exact buildChannel_names oracle _ d n hn
        · simp only [constructLoop, hb] at hn
          simp only [requestedNames, List.filterMap_append] at hn
          rcases List.mem_append.mp hn with hn | hn
          · exact buildChannel_names oracle _ d n (by simpa [requestedNames] using hn)
          · simp only [List.filterMap_cons, Event.requestedName] at hn
            exact ih n (by simpa [requestedNames] using hn)
  intro n hn
  rcases hc : (constructLoop oracle id defs).2 with _ | chs
  · simp only [constructShadowNode, hc] at hn
    exact hloop defs n hn
  · simp only [constructShadowNode, hc] at hn
    simp only [requestedNames, List.filterMap_append, List.filterMap_cons,
      List.filterMap_nil, Event.requestedName, List.append_nil] at hn
    exact hloop defs n (by simpa [requestedNames] using hn)

/-- C1 failing input: gammaOffDef sets hwGammaWrite to BoolSetting.False. -/
def gammaOffDef : ShadowTextureDefinition :=
  { name := "shadow", width := 1, height := 1, formatList := [5], fsaa := true,
    hwGammaWrite := BoolSetting.False }

/-- Texture the backend is asked to create for gammaOffDef. -/
def gammaOffTexture : Texture :=
  mkTexture (.base { defName := "shadow", instanceId := 7 }) gammaOffDef 5

/-- Channel built from gammaOffDef. -/
def gammaOffChannel : CompositorChannel :=
  { target := .texRT gammaOffTexture.texName, textures := [gammaOffTexture] }

/-- C1: evaluation at the failing input. gammaOffDef's tri-state gamma-write
setting is False ("disable gamma correction"), yet the texture-creation
request the construction emits carries hwGamma = true, because the enum value
(False = 1) is implicitly converted to bool at the createManual call site; so
a definition whose gamma-write setting is False does request gamma correction
from the backend, contradicting the documented BoolSetting semantics. -/
theorem hwGammaWrite_False_requests_gamma :
    gammaOffDef.hwGammaWrite = BoolSetting.False ∧
    (constructShadowNode (fun _ => true) 7 [gammaOffDef]).1 =
      [Event.createTex gammaOffTexture, Event.pushChannel gammaOffChannel,
       Event.initPasses] ∧
    gammaOffTexture.hwGamma = true := by decide

/-- C2: construction is atomic over backend failures — either the failure
propagates and no node at all is exposed (result none), or the exposed node's
local-channel collection holds exactly one channel per definition, never a
strict prefix of them. -/
theorem constructShadowNode_atomic (oracle : AllocReq → Bool) (id : Nat)
    (defs : List ShadowTextureDefinition) :
    (constructShadowNode oracle id defs).2 = none ∨
    ∃ node, (constructShadowNode oracle id defs).2 = some node ∧
      node.mLocalTextures.length = defs.length := by
  rcases hc : (constructLoop oracle id defs).2 with _ | chs
  · left
    simp [constructShadowNode, hc]
  · right
    refine ⟨{ id := id, mLocalTextures := chs }, ?_, ?_⟩
    · simp [constructShadowNode, hc]
    · exact (constructLoop_channels oracle id defs chs hc).1

/-- C3: for a definition with more than one format and a granting backend,
buildChannel creates one MRT container and then, per format in list order,
a 2D texture named with the base name suffixed by its ordinal whose render
target is bound as that ordinal's surface of the MRT container; the resulting
channel collects exactly one texture per format, in the same order. -/
theorem buildChannel_mrt (oracle : AllocReq → Bool) (base : FriendlyName)
    (d : ShadowTextureDefinition) (hor : ∀ r, oracle r = true)
    (h : 1 < d.formatList.length) :
    buildChannel oracle base d =
      (Event.createMRT (TexName.base base) ::
         (d.formatList.enum.flatMap fun p =>
           [Event.createTex (mkTexture (.mrtSlot base p.1) d p.2),
            Event.bindSurface (TexName.base base) p.1 (.texRT (.mrtSlot base p.1))]),
       some { target := .mrtRT (TexName.base base),
              textures := d.formatList.enum.map
                fun p => mkTexture (.mrtSlot base p.1) d p.2 }) ∧
    ∀ ch, (buildChannel oracle base d).2 = some ch →
      ch.textures.length = d.formatList.length ∧
      ∀ (i : Nat) (f : PixelFormat), d.formatList[i]? = some f →
        ch.textures[i]? = some (mkTexture (.mrtSlot base i) d f) ∧
        Event.bindSurface (TexName.base base) i (.texRT (.mrtSlot base i)) ∈
          (buildChannel oracle base d).1 := by
  have hne : ¬ d.formatList.length = 1 := by omega
  have heq :
      buildChannel oracle base d =
        (Event.createMRT (TexName.base base) ::
           (d.formatList.enum.flatMap fun p =>
             [Event.createTex (mkTexture (.mrtSlot base p.1) d p.2),
              Event.bindSurface (TexName.base base) p.1
                (.texRT (.mrtSlot base p.1))]),
         some { target := .mrtRT (TexName.base base),
                textures := d.formatList.enum.map
                  fun p => mkTexture (.mrtSlot base p.1) d p.2 }) := by
    rw [buildChannel]
    simp [hne, hor, mrtLoop_granted oracle base d hor d.formatList 0, List.enum]
  refine ⟨heq, ?_⟩
  intro ch hch
  rw [heq] at hch
  simp at hch
  subst hch
  constructor
  · simp
  · intro i f hif
    constructor
    · simp [List.getElem?_enum, hif]
    · rw [heq]
      simp only [List.mem_cons]
      right
      rw [List.mem_flatMap]
      refine ⟨(i, f), ?_, by simp⟩
      rw [List.mk_mem_enum_iff_getElem?]
      exact hif

/-- Witness for C3 at wdefMRT (formats [8, 9]) in instance 4: the channel has
one texture per format and its second texture is the ordinal-1-suffixed one
of format 9. -/
theorem buildChannel_mrt_witness :
    wchM.textures.length = wdefMRT.formatList.length ∧
    wchM.textures[1]? = some (mkTexture (.mrtSlot wnameM 1) wdefMRT 9) := by
  have h := buildChannel_mrt (fun _ => true) wnameM wdefMRT (fun r => rfl) (by decide)
  have h2 := h.2 wchM (by decide)
  exact ⟨h2.1, (h2.2 1 9 (by decide)).1⟩

/-- C4: a successful construction records exactly one channel per definition
in definition order — the channel at index i of mLocalTextures is the one
buildChannel produces from the definition at index i. -/
theorem constructShadowNode_channel_order (oracle : AllocReq → Bool) (id : Nat)
    (defs : List ShadowTextureDefinition) (node : CompositorShadowNode)
    (h : (constructShadowNode oracle id defs).2 = some node) :
    node.mLocalTextures.length = defs.length ∧
    ∀ (i : Nat) (d : ShadowTextureDefinition), defs[i]? = some d →
      node.mLocalTextures[i]? =
        (buildChannel oracle { defName := d.name, instanceId := id } d).2 := by
  rcases hc : (constructLoop oracle id defs).2 with _ | chs
  · simp [constructShadowNode, hc] at h
  · simp [constructShadowNode, hc] at h
    rw [← h]
    exact constructLoop_channels oracle id defs chs hc

/-- Witness for C4 at [wdefSingle, wdefMRT], instance 4, granting backend:
the node exposes two channels and channel 1 is the one built from the MRT
definition. -/
theorem constructShadowNode_channel_order_witness :
    wnode.mLocalTextures.length = [wdefSingle, wdefMRT].length ∧
    wnode.mLocalTextures[1]? =
      (buildChannel (fun _ => true) { defName := "wmrt", instanceId := 4 } wdefMRT).2 := by
  have h := constructShadowNode_channel_order (fun _ => true) 4 [wdefSingle, wdefMRT]
    wnode (by decide)
  exact ⟨h.1, h.2 1 wdefMRT (by decide)⟩

/-- C5: on success the trace ends with a single initializePasses event that
occurs after one channel push per definition (so never while some
definition's channel is missing), and on failure initializePasses is never
invoked at all. -/
theorem initializePasses_once_after_all (oracle : AllocReq → Bool) (id : Nat)
    (defs : List ShadowTextureDefinition) :
    ((constructShadowNode oracle id defs).2.isSome = true →
      ∃ evs0, (constructShadowNode oracle id defs).1 = evs0 ++ [Event.initPasses] ∧
        Event.initPasses ∉ evs0 ∧
        evs0.countP Event.isPushChannel = defs.length) ∧
    ((constructShadowNode oracle id defs).2 = none →
      Event.initPasses ∉ (constructShadowNode oracle id defs).1) := by
  rcases hc : (constructLoop oracle id defs).2 with _ | chs
  · constructor
    · intro hsome
      simp [constructShadowNode, hc] at hsome
    · intro _
      simp [constructShadowNode, hc]
      exact (constructLoop_trace oracle id defs).1
  · constructor
    · intro _
      refine ⟨(constructLoop oracle id defs).1, ?_, ?_, ?_⟩
      · simp [constructShadowNode, hc]
      · exact (constructLoop_trace oracle id defs).1
      · exact (constructLoop_trace oracle id defs).2 chs hc
    · intro hnone
      simp [constructShadowNode, hc] at hnone

/-- Witness for C5 at [wdefSingle], instance 4, granting backend. -/
theorem initializePasses_once_after_all_witness :
    ∃ evs0, (constructShadowNode (fun _ => true) 4 [wdefSingle]).1 =
        evs0 ++ [Event.initPasses] ∧
      Event.initPasses ∉ evs0 ∧
      evs0.countP Event.isPushChannel = [wdefSingle].length :=
  (initializePasses_once_after_all (fun _ => true) 4 [wdefSingle]).1 (by decide)

/-- C9: two constructions from the same definition list under distinct
instance identifiers request disjoint backend name sets — every requested
name embeds its owner's identifier, so no name requested by one instance
equals any name requested by the other. -/
theorem distinct_instances_distinct_names (defs : List ShadowTextureDefinition)
    (id1 id2 : Nat) (o1 o2 : AllocReq → Bool) (h : id1 ≠ id2) :
    ∀ n1 ∈ requestedNames (constructShadowNode o1 id1 defs).1,
      ∀ n2 ∈ requestedNames (constructShadowNode o2 id2 defs).1, n1 ≠ n2 := by
  intro n1 h1 n2 h2 heq
  have e1 := constructShadowNode_names o1 id1 defs n1 h1
  have e2 := constructShadowNode_names o2 id2 defs n2 h2
  rw [heq] at e1
  exact h (e1.symm.trans e2)

/-- Witness for C9: instances 1 and 2 built from [wdefSingle] request the
distinct names base("wtex", 1) and base("wtex", 2). -/
theorem distinct_instances_distinct_names_witness :
    TexName.base { defName := "wtex", instanceId := 1 } ≠
      TexName.base { defName := "wtex", instanceId := 2 } :=
  distinct_instances_distinct_names [wdefSingle] 1 2 (fun _ => true) (fun _ => true)
    (by decide) (TexName.base { defName := "wtex", instanceId := 1 }) (by decide)
    (TexName.base { defName := "wtex", instanceId := 2 }) (by decide)

/-- C10: an empty format list takes the MRT branch without failing: the
backend receives exactly one MRT-container request and no texture request, no
surface is bound, and the produced channel targets that MRT with an empty
texture list; moreover a channel with a plain single-texture render target
arises exactly for format lists of length one. -/
theorem buildChannel_empty_formatList (oracle : AllocReq → Bool)
    (base : FriendlyName) (d : ShadowTextureDefinition)
    (hempty : d.formatList = [])
    (hor : oracle (AllocReq.mrt (TexName.base base)) = true) :
    buildChannel oracle base d =
      ([Event.createMRT (TexName.base base)],
       some { target := .mrtRT (TexName.base base), textures := [] }) ∧
    ∀ (d2 : ShadowTextureDefinition) (evs : List Event) (ch : CompositorChannel),
      buildChannel oracle base d2 = (evs, some ch) →
      ((∃ n, ch.target = RenderTargetHandle.texRT n) ↔ d2.formatList.length = 1) := by
  constructor
  · rw [buildChannel]
    simp [hempty, hor, mrtLoop]
  · intro d2 evs ch hbc
    rw [buildChannel] at hbc
    by_cases hlen : d2.formatList.length = 1
    · simp only [hlen, if_true] at hbc
      split at hbc
      · simp at hbc
        obtain ⟨hevs, hch⟩ := hbc
        subst hch
        simp [hlen]
      · simp at hbc
    · simp only [hlen, if_false, hor, if_true] at hbc
      rcases hm : (mrtLoop oracle base d2 d2.formatList 0).2 with _ | texs
      · rw [hm] at hbc; simp at hbc
      · rw [hm] at hbc
        simp at hbc
        obtain ⟨hevs, hch⟩ := hbc
        subst hch
        simp [hlen]

/-- Witness for C10 at wdefEmpty (no formats) in instance 4 with a granting
backend. -/
theorem buildChannel_empty_formatList_witness :
    buildChannel (fun _ => true) { defName := "wempty", instanceId := 4 } wdefEmpty =
      ([Event.createMRT (TexName.base { defName := "wempty", instanceId := 4 })],
       some { target := .mrtRT (TexName.base { defName := "wempty", instanceId := 4 }),
              textures := [] }) :=
  (buildChannel_empty_formatList (fun _ => true)
    { defName := "wempty", instanceId := 4 } wdefEmpty rfl rfl).1

end OgreSpec
